import Mathlib

set_option maxRecDepth 100000

/-!
Shallow embedding of the FalkorDB omnistrate health-check sidecars.

Two program variants are embedded:
the main sidecar `src/healthcheck_rs/src/main.rs` (endpoints `/liveness`,
`/readiness`, `/startup`) and the older node variant
`src/falkordb-node/healthcheck_rs/src/main.rs` (endpoint `/healthcheck`).

The backend (a Redis-protocol server) is modelled as the tuple of replies the
program would observe on one probe: the connection attempt, the `INFO` reply,
the `CLUSTER INFO` reply and the `PING` reply.  A Rust `Result<T, RedisError>`
is `Except RedisError T`; a Rust panic (`unwrap` on `Err`, a failed `assert!`)
is `Option.none` at the point where the panic escapes the modelled function.
Rust's substring test `str::contains` and the two regexes `role:(\w+)` and
`master_sync_in_progress:(\d+)` are implemented character by character below.
-/

namespace HealthCheck

/-- Character class of the regex `\w` (ASCII reading, which covers every value
the backend emits for `role`): letters, digits and underscore. -/
def isWordChar (c : Char) : Bool := c.isAlphanum || c == '_'

/-- Tests whether the first list is an initial segment of the second. -/
def startsWithL : List Char → List Char → Bool
  | [], _ => true
  | _ :: _, [] => false
  | a :: as, b :: bs => a == b && startsWithL as bs

/-- Substring containment on character lists: Rust `str::contains` with a
string pattern. -/
def listContainsSub (needle : List Char) : List Char → Bool
  | [] => needle.isEmpty
  | c :: cs => startsWithL needle (c :: cs) || listContainsSub needle cs

/-- Rust `hay.contains(needle)` for string slices. -/
def strContains (hay needle : String) : Bool := listContainsSub needle.data hay.data

/-- Longest run of characters of a class at the head of the list. -/
def takeClass (cls : Char → Bool) : List Char → List Char
  | [] => []
  | c :: cs => if cls c then c :: takeClass cls cs else []

/-- First capture of the regex `LIT(CLS+)` in the input, Rust leftmost-first
semantics: at the leftmost position where the literal `pat` is followed by at
least one character of the class, capture the maximal run of class characters.
This implements `role:(\w+)` (with `isWordChar`) and
`master_sync_in_progress:(\d+)` (with `Char.isDigit`). -/
def findCapture (pat : List Char) (cls : Char → Bool) : List Char → Option (List Char)
  | [] => none
  | c :: cs =>
    if startsWithL pat (c :: cs) then
      match takeClass cls (List.drop pat.length (c :: cs)) with
      | [] => findCapture pat cls cs
      | d :: ds => some (d :: ds)
    else findCapture pat cls cs

/-- Error kinds of the `redis` crate that the source matches on; every other
kind is collapsed into `Other` (the source treats them all alike, in its
catch-all `_` branches). -/
inductive ErrorKind
  | BusyLoadingError
  | MasterDown
  | IoError
  | ResponseError
  | Other
deriving DecidableEq

/-- A `redis::RedisError`: its kind plus the detail message. -/
structure RedisError where
  kind : ErrorKind
  detail : String
deriving DecidableEq

/-- The replies one probe evaluation would observe from the backend. -/
structure Backend where
  conn : Except RedisError Unit
  info : Except RedisError String
  clusterInfo : Except RedisError String
  ping : Except RedisError String

/-- Source `get_redis_role` (src/healthcheck_rs/src/main.rs:207): first capture
of `role:(\w+)` in the INFO text, or the error `Role not found`. -/
def get_redis_role (db_info : String) : Except RedisError String :=
  match findCapture ("role:").data isWordChar db_info.data with
  | some w => Except.ok (String.mk w)
  | none => Except.error ⟨ErrorKind.ResponseError, "Role not found"⟩

/-- Source `check_sentinel` (src/healthcheck_rs/src/main.rs:202): a PING reply
error propagates with `?`; a reply passes iff it equals `PONG`. -/
def check_sentinel (ping : Except RedisError String) : Except RedisError Bool :=
  match ping with
  | Except.error e => Except.error e
  | Except.ok s => Except.ok (s == "PONG")

/-- Source `get_status_from_cluster_node_liveness`
(src/healthcheck_rs/src/main.rs:236): on a `CLUSTER INFO` reply, pass iff it
contains `cluster_state:ok`; on a command error, pass only for
`BusyLoadingError`, every other kind falls to `Ok(false)`. -/
def get_status_from_cluster_node_liveness (_db_info : String)
    (clusterInfo : Except RedisError String) : Except RedisError Bool :=
  match clusterInfo with
  | Except.ok result => Except.ok (strContains result "cluster_state:ok")
  | Except.error err =>
    match err.kind with
    | ErrorKind.BusyLoadingError => Except.ok true
    | _ => Except.ok false

/-- Source `get_status_from_cluster_node_readiness`
(src/healthcheck_rs/src/main.rs:262): pass iff the `CLUSTER INFO` reply
contains `cluster_state:ok`; every command error falls to `Ok(false)`. -/
def get_status_from_cluster_node_readiness (_db_info : String)
    (clusterInfo : Except RedisError String) : Except RedisError Bool :=
  match clusterInfo with
  | Except.ok result => Except.ok (strContains result "cluster_state:ok")
  | Except.error _ => Except.ok false

/-- Source `get_status_from_master_liveness` (src/healthcheck_rs/src/main.rs:293):
pass iff the PING reply contains `PONG`, or the PING error kind is
`BusyLoadingError`; every other error kind falls to `Ok(false)`. -/
def get_status_from_master_liveness (ping : Except RedisError String) :
    Except RedisError Bool :=
  match ping with
  | Except.ok result => Except.ok (strContains result "PONG")
  | Except.error err =>
    match err.kind with
    | ErrorKind.BusyLoadingError => Except.ok true
    | _ => Except.ok false

/-- Source `get_status_from_master_readiness` (src/healthcheck_rs/src/main.rs:316):
pass iff the PING reply contains `PONG` and the INFO text contains the
substring `loading:0`; every PING error falls to `Ok(false)`. -/
def get_status_from_master_readiness (db_info : String)
    (ping : Except RedisError String) : Except RedisError Bool :=
  match ping with
  | Except.ok result =>
    Except.ok (strContains result "PONG" && strContains db_info "loading:0")
  | Except.error _ => Except.ok false

/-- Source `get_status_from_slave_liveness` (src/healthcheck_rs/src/main.rs:345):
pass iff the PING reply contains `PONG`, or the PING error kind is
`BusyLoadingError` or `MasterDown`. -/
def get_status_from_slave_liveness (ping : Except RedisError String) :
    Except RedisError Bool :=
  match ping with
  | Except.ok result => Except.ok (strContains result "PONG")
  | Except.error err =>
    match err.kind with
    | ErrorKind.BusyLoadingError => Except.ok true
    | ErrorKind.MasterDown => Except.ok true
    | _ => Except.ok false

/-- Source `get_status_from_slave_readiness` (src/healthcheck_rs/src/main.rs:371):
pass iff the PING reply contains `PONG` and the INFO text contains the
substrings `loading:0`, `master_link_status:up` and
`master_sync_in_progress:0`. -/
def get_status_from_slave_readiness (db_info : String)
    (ping : Except RedisError String) : Except RedisError Bool :=
  match ping with
  | Except.ok result =>
    Except.ok (strContains result "PONG" && strContains db_info "loading:0" &&
      strContains db_info "master_link_status:up" &&
      strContains db_info "master_sync_in_progress:0")
  | Except.error _ => Except.ok false

/-- Source `check_node_liveness` (src/healthcheck_rs/src/main.rs:148): errors of
`get_redis_role` propagate with `?`; role `master` dispatches to the master
liveness check, any other role to the slave liveness check. -/
def check_node_liveness (db_info : String) (ping : Except RedisError String) :
    Except RedisError Bool :=
  match get_redis_role db_info with
  | Except.error e => Except.error e
  | Except.ok role =>
    if role == "master" then get_status_from_master_liveness ping
    else get_status_from_slave_liveness ping

/-- Source `check_node_readiness` (src/healthcheck_rs/src/main.rs:157). -/
def check_node_readiness (db_info : String) (ping : Except RedisError String) :
    Except RedisError Bool :=
  match get_redis_role db_info with
  | Except.error e => Except.error e
  | Except.ok role =>
    if role == "master" then get_status_from_master_readiness db_info ping
    else get_status_from_slave_readiness db_info ping

/-- Source `check_handler_liveness` (src/healthcheck_rs/src/main.rs:100): the
connection attempt and the `INFO` query propagate errors with `?`; sentinel
mode pings only; `cluster_enabled:1` in the INFO text selects the cluster
check, otherwise the node check runs. -/
def check_handler_liveness (is_sentinel : Bool) (b : Backend) :
    Except RedisError Bool :=
  match b.conn with
  | Except.error e => Except.error e
  | Except.ok _ =>
    if is_sentinel then check_sentinel b.ping
    else
      match b.info with
      | Except.error e => Except.error e
      | Except.ok db_info =>
        if strContains db_info "cluster_enabled:1" then
          get_status_from_cluster_node_liveness db_info b.clusterInfo
        else
          check_node_liveness db_info b.ping

/-- Source `check_handler_readiness` (src/healthcheck_rs/src/main.rs:120). -/
def check_handler_readiness (is_sentinel : Bool) (b : Backend) :
    Except RedisError Bool :=
  match b.conn with
  | Except.error e => Except.error e
  | Except.ok _ =>
    if is_sentinel then check_sentinel b.ping
    else
      match b.info with
      | Except.error e => Except.error e
      | Except.ok db_info =>
        if strContains db_info "cluster_enabled:1" then
          get_status_from_cluster_node_readiness db_info b.clusterInfo
        else
          check_node_readiness db_info b.ping

/-- Source routes of `start_health_check_server`
(src/healthcheck_rs/src/main.rs:38): `liveness_check(..).unwrap_or_else(|_| false)`
maps any error to `false`; `true` answers `200 OK`, `false` answers
`500 Not ready`. -/
def probe_endpoint (result : Except RedisError Bool) : Nat × String :=
  let health :=
    match result with
    | Except.ok h => h
    | Except.error _ => false
  if health then (200, "OK") else (500, "Not ready")

/-- Source of the node variant, sync test
(src/falkordb-node/healthcheck_rs/src/main.rs:81): first capture of
`master_sync_in_progress:(\d+)`; absent capture fails, capture `0` passes. -/
def node_sync_ok (db_info : String) : Bool :=
  match findCapture ("master_sync_in_progress:").data Char.isDigit db_info.data with
  | none => false
  | some d => String.mk d == "0"

/-- Source of the node variant, classification part of `health_check_handler`
(src/falkordb-node/healthcheck_rs/src/main.rs:67): missing role is `Ok(false)`,
role `master` is `Ok(true)`, any other role defers to the sync test. -/
def node_classify (db_info : String) : Bool :=
  match findCapture ("role:").data isWordChar db_info.data with
  | none => false
  | some w => if String.mk w == "master" then true else node_sync_ok db_info

/-- Source `health_check_handler` of the node variant
(src/falkordb-node/healthcheck_rs/src/main.rs:36): connection and `INFO` errors
propagate with `?`; the classification result is always `Ok`. -/
def node_health_check_handler (conn : Except RedisError Unit)
    (info : Except RedisError String) : Except RedisError Bool :=
  match conn with
  | Except.error e => Except.error e
  | Except.ok _ =>
    match info with
    | Except.error e => Except.error e
    | Except.ok db_info => Except.ok (node_classify db_info)

/-- Source route of the node variant's `start_health_check_server`
(src/falkordb-node/healthcheck_rs/src/main.rs:17): the handler result is
`unwrap()`ed, so an `Err` panics inside the request handler — modelled as
`none`; an `Ok` verdict answers `200 OK` or `500 Not ready`. -/
def node_health_route (result : Except RedisError Bool) : Option (Nat × String) :=
  match result with
  | Except.error _ => none
  | Except.ok h => if h then some (200, "OK") else some (500, "Not ready")

/-- Environment variables that `get_redis_url` reads
(src/healthcheck_rs/src/main.rs:186): `TLS`, `NODE_HOST`, `RANDOM_NODE_PORT`;
`none` is an unset variable. -/
structure Env where
  tls : Option String
  node_host : Option String
  random_node_port : Option String

/-- Loop body of source `resolve_host` (src/healthcheck_rs/src/main.rs:397):
`lookup_host` at attempt times `t, t+1, ...` (one failed attempt per elapsed
second) until success or the fuel — the remaining whole seconds of the 300 s
budget — runs out. -/
def resolve_host_go (oracle : Nat → Bool) : Nat → Nat → Bool
  | _, 0 => false
  | t, fuel + 1 => if oracle t then true else resolve_host_go oracle (t + 1) fuel

/-- Source `resolve_host` (src/healthcheck_rs/src/main.rs:397): polls DNS
resolution once per second for a total budget of 300 seconds; `oracle t` tells
whether the lookup at second `t` succeeds.  Returns `true` when the host
resolved; `false` means the final `assert!(resolved)` panics. -/
def resolve_host (oracle : Nat → Bool) : Bool := resolve_host_go oracle 0 300

/-- Source `get_redis_url` (src/healthcheck_rs/src/main.rs:186): with `TLS=true`
it `unwrap()`s `NODE_HOST` (panic when unset, modelled `none`), runs
`resolve_host` (panic when unresolved within the budget, modelled `none`), and
builds a `rediss://` URL with `RANDOM_NODE_PORT` overriding the port; otherwise
it builds the plain localhost `redis://` URL. -/
def get_redis_url (env : Env) (oracle : Nat → Bool) (password node_port : String) :
    Option String :=
  match env.tls with
  | some tls =>
    if tls == "true" then
      match env.node_host with
      | some url =>
        if resolve_host oracle then
          let np := env.random_node_port.getD node_port
          some ("rediss://:" ++ password ++ "@" ++ url ++ ":" ++ np)
        else none
      | none => none
    else some ("redis://:" ++ password ++ "@localhost:" ++ node_port)
  | none => some ("redis://:" ++ password ++ "@localhost:" ++ node_port)

/-- One full `/liveness` request of the main variant including the URL
construction that `check_handler_liveness` performs first
(src/healthcheck_rs/src/main.rs:100): when `get_redis_url` panics (DNS never
resolves, or `NODE_HOST` unset under TLS) the request handler dies — `none`;
otherwise the probe evaluation runs against the backend replies. -/
def check_handler_liveness_full (env : Env) (oracle : Nat → Bool)
    (password node_port : String) (b : Backend) :
    Option (Except RedisError Bool) :=
  match get_redis_url env oracle password node_port with
  | none => none
  | some _ => some (check_handler_liveness false b)

/-- Address computation of source `start_health_check_server`
(src/healthcheck_rs/src/main.rs:29): the `HEALTH_CHECK_PORT` variable or the
default `8081`; startup performs no DNS resolution — the listener address
depends on nothing else. -/
def start_health_check_addr (health_check_port : Option String) : String :=
  "localhost:" ++ health_check_port.getD "8081"

/-- Renders a field mapping (the spec's IntrospectionSnapshot) into the
line-oriented `key:value` text the backend's introspection command emits. -/
def renderInfo : List (String × String) → String
  | [] => ""
  | (k, v) :: t => k ++ ":" ++ v ++ "\r\n" ++ renderInfo t

/-- Field lookup in a snapshot mapping: the value of the first binding of the
key, `none` when the field is absent. -/
def lookupField : List (String × String) → String → Option String
  | [], _ => none
  | (k, v) :: t, key => if k == key then some v else lookupField t key

/-- Modelled from the spec: the probe kinds of §3 — the Override Policy Engine
and Disk-Activity Fallback Monitor are not under `src/`. -/
inductive ProbeKind
  | liveness
  | readiness
  | startup
deriving DecidableEq

/-- Modelled from the spec: the OverrideDecision of §3, four independent
boolean flags resolved fresh per probe, all default false. -/
structure OverrideDecision where
  skipAll : Bool
  skipLiveness : Bool
  skipReadiness : Bool
  skipStartup : Bool
deriving DecidableEq

/-- Modelled from the spec (§4.6): a probe kind is overridden when skip-all is
set or when its own skip flag is set. -/
def override_applies (d : OverrideDecision) (k : ProbeKind) : Bool :=
  d.skipAll ||
    (match k with
     | ProbeKind.liveness => d.skipLiveness
     | ProbeKind.readiness => d.skipReadiness
     | ProbeKind.startup => d.skipStartup)

/-- Modelled from the spec (§4.6): the global disable flag short-circuits
first, then the remotely-distributed OverrideDecision; only when neither
matches does the real backend evaluation decide the response. -/
def probe_with_overrides (globalDisable : Bool) (d : OverrideDecision)
    (k : ProbeKind) (result : Except RedisError Bool) : Nat × String :=
  if globalDisable then (200, "OK")
  else if override_applies d k then (200, "OK")
  else probe_endpoint result

/-- Modelled from the spec (§4.3): outcome of the direct liveness ping — a pong
reply, a protocol-level failure, or an I/O-class timeout. -/
inductive PingOutcome
  | pong
  | protocolError
  | ioTimeout
deriving DecidableEq

/-- Modelled from the spec (§4.5): the Disk-Activity Fallback Monitor samples
the backend process's cumulative disk-read counter twice across the window;
a missing process at either sample is a monitor failure (fail); otherwise the
delta must exceed the threshold (default 0). -/
def disk_fallback (sample1 sample2 : Option Nat) (threshold : Nat) : Bool :=
  match sample1, sample2 with
  | some a, some b => decide (threshold < b - a)
  | _, _ => false

/-- Modelled from the spec (§4.3, §4.5): direct-ping liveness with the
disk-activity fallback — a pong passes, a protocol error fails immediately,
and only an I/O timeout invokes the fallback monitor. -/
def liveness_with_fallback (ping : PingOutcome) (sample1 sample2 : Option Nat)
    (threshold : Nat) : Bool :=
  match ping with
  | PingOutcome.pong => true
  | PingOutcome.protocolError => false
  | PingOutcome.ioTimeout => disk_fallback sample1 sample2 threshold

/-- Helper: when the lookup oracle never succeeds, the resolution loop
exhausts any fuel and reports failure. -/
theorem resolve_host_go_dead (oracle : Nat → Bool) (h : ∀ t, oracle t = false) :
    ∀ fuel t, resolve_host_go oracle t fuel = false := by
  intro fuel
  induction fuel with
  | zero => intro t; rfl
  | succ n ih =>
    intro t
    rw [resolve_host_go, h t]
    simpa using ih (t + 1)

/-- C1 (counterexample): in the falkordb-node variant a backend connection
error does not produce the `500 Not ready` verdict — `unwrap()` on the `Err`
panics inside the request handler (modelled `none`). -/
theorem c1_counterexample :
    node_health_route (Except.error ⟨ErrorKind.IoError, "connection refused"⟩) ≠
      some (500, "Not ready") := by
  simp [node_health_route]

/-- C1 (corrected): in the main variant every backend error of a probe
evaluation — a connection error propagates through the handler unchanged — is
turned by the route into exactly HTTP `500 Not ready`, with no retry (each
request evaluates the pipeline once); in the falkordb-node variant the same
error instead panics the request handler (`unwrap()` on `Err`), so it is not
returned as the `Not ready` verdict. -/
theorem c1_amended : ∀ (e : RedisError) (s : Bool) (i c p : Except RedisError String),
    check_handler_liveness s ⟨Except.error e, i, c, p⟩ = Except.error e ∧
    check_handler_readiness s ⟨Except.error e, i, c, p⟩ = Except.error e ∧
    probe_endpoint (Except.error e) = (500, "Not ready") ∧
    node_health_route (Except.error e) = none := by
  intro e s i c p
  exact ⟨rfl, rfl, rfl, rfl⟩

/-- C2 (counterexample): with cluster mode enabled, a `CLUSTER INFO` command
failure whose kind is master-down yields a failed liveness verdict, although
the claim requires liveness to pass on an error indicating master-down. -/
theorem c2_counterexample :
    check_handler_liveness false
      ⟨Except.ok (), Except.ok "cluster_enabled:1\r\n",
       Except.error ⟨ErrorKind.MasterDown, "MASTERDOWN Link with MASTER is down"⟩,
       Except.ok "PONG"⟩ = Except.ok false := rfl

/-- C2 (corrected): in non-sentinel clustered mode, readiness passes iff the
cluster-status command succeeds with a reply containing `cluster_state:ok`,
and liveness passes in exactly those cases plus the case where the command
fails with a busy-loading error — a master-down or any other error kind fails
liveness too. -/
theorem c2_amended : ∀ (b : Backend) (t : String),
    b.conn = Except.ok () → b.info = Except.ok t →
    strContains t "cluster_enabled:1" = true →
    (check_handler_readiness false b = Except.ok true ↔
      (∃ r, b.clusterInfo = Except.ok r ∧ strContains r "cluster_state:ok" = true)) ∧
    (check_handler_liveness false b = Except.ok true ↔
      ((∃ r, b.clusterInfo = Except.ok r ∧ strContains r "cluster_state:ok" = true) ∨
       (∃ e, b.clusterInfo = Except.error e ∧ e.kind = ErrorKind.BusyLoadingError))) := by
  intro b t hc hi hcl
  constructor
  · simp only [check_handler_readiness, hc, hi, hcl]
    cases hci : b.clusterInfo with
    | ok a => simp [get_status_from_cluster_node_readiness, hci]
    | error e => simp [get_status_from_cluster_node_readiness, hci]
  · simp only [check_handler_liveness, hc, hi, hcl]
    cases hci : b.clusterInfo with
    | ok a => simp [get_status_from_cluster_node_liveness, hci]
    | error e =>
      cases hk : e.kind <;>
        simp [get_status_from_cluster_node_liveness, hci, hk]

/-- C2 (witness): a healthy clustered backend passes readiness. -/
theorem c2_witness :
    (check_handler_readiness false
        ⟨Except.ok (), Except.ok "cluster_enabled:1\r\n",
         Except.ok "cluster_state:ok\r\n", Except.ok "PONG"⟩ = Except.ok true ↔
      (∃ r, (⟨Except.ok (), Except.ok "cluster_enabled:1\r\n",
         Except.ok "cluster_state:ok\r\n", Except.ok "PONG"⟩ : Backend).clusterInfo =
          Except.ok r ∧ strContains r "cluster_state:ok" = true)) ∧
    (check_handler_liveness false
        ⟨Except.ok (), Except.ok "cluster_enabled:1\r\n",
         Except.ok "cluster_state:ok\r\n", Except.ok "PONG"⟩ = Except.ok true ↔
      ((∃ r, (⟨Except.ok (), Except.ok "cluster_enabled:1\r\n",
         Except.ok "cluster_state:ok\r\n", Except.ok "PONG"⟩ : Backend).clusterInfo =
          Except.ok r ∧ strContains r "cluster_state:ok" = true) ∨
       (∃ e, (⟨Except.ok (), Except.ok "cluster_enabled:1\r\n",
         Except.ok "cluster_state:ok\r\n", Except.ok "PONG"⟩ : Backend).clusterInfo =
          Except.error e ∧ e.kind = ErrorKind.BusyLoadingError))) :=
  c2_amended _ "cluster_enabled:1\r\n" rfl rfl rfl

/-- C3 (counterexample): a slave snapshot whose `loading` field is `1` still
passes readiness, because the raw-text substring test `contains("loading:0")`
is satisfied by the distinct field `async_loading:0` — so the verdict is not a
function of the three named fields alone. -/
theorem c3_counterexample :
    check_node_readiness
        (renderInfo [("role", "slave"), ("master_link_status", "up"),
          ("master_sync_in_progress", "0"), ("loading", "1"), ("async_loading", "0")])
        (Except.ok "PONG") = Except.ok true ∧
    lookupField [("role", "slave"), ("master_link_status", "up"),
        ("master_sync_in_progress", "0"), ("loading", "1"), ("async_loading", "0")]
        "loading" = some "1" :=
  ⟨rfl, rfl⟩

/-- C3 (corrected): for a non-master role, readiness passes iff the ping reply
contains `PONG` and the raw introspection text contains the substrings
`loading:0`, `master_link_status:up` and `master_sync_in_progress:0` — a
substring test, which other fields (such as `async_loading:0`) can satisfy,
not a test of the fields' own values. -/
theorem c3_amended : ∀ (db_info role : String),
    get_redis_role db_info = Except.ok role → role ≠ "master" →
    ∀ ping : Except RedisError String,
    (check_node_readiness db_info ping = Except.ok true ↔
      ∃ r, ping = Except.ok r ∧ strContains r "PONG" = true ∧
        strContains db_info "loading:0" = true ∧
        strContains db_info "master_link_status:up" = true ∧
        strContains db_info "master_sync_in_progress:0" = true) := by
  intro db_info role hrole hm ping
  simp only [check_node_readiness, hrole, beq_iff_eq, hm, if_false]
  cases ping with
  | ok r => simp [get_status_from_slave_readiness, and_assoc]
  | error e => simp [get_status_from_slave_readiness]

/-- C3 (witness): a synced, loaded slave with a healthy master link passes
readiness. -/
theorem c3_witness :
    check_node_readiness
        "role:slave\r\nmaster_link_status:up\r\nmaster_sync_in_progress:0\r\nloading:0\r\n"
        (Except.ok "PONG") = Except.ok true :=
  (c3_amended
      "role:slave\r\nmaster_link_status:up\r\nmaster_sync_in_progress:0\r\nloading:0\r\n"
      "slave" rfl (by decide) (Except.ok "PONG")).mpr
    ⟨"PONG", rfl, rfl, rfl, rfl, rfl⟩

/-- C4 (counterexample): a master snapshot with no `loading` field at all still
passes readiness, because `async_loading:0` satisfies the substring test
`contains("loading:0")` — the claim requires a fail when `loading` is absent. -/
theorem c4_counterexample :
    check_node_readiness (renderInfo [("role", "master"), ("async_loading", "0")])
        (Except.ok "PONG") = Except.ok true ∧
    lookupField [("role", "master"), ("async_loading", "0")] "loading" = none :=
  ⟨rfl, rfl⟩

/-- C4 (corrected): for role master, readiness passes iff the ping reply
contains `PONG` and the raw introspection text contains the substring
`loading:0` — which the field `loading` being `0` guarantees, but which other
fields (such as `async_loading:0`) can also supply when `loading` is absent or
nonzero. -/
theorem c4_amended : ∀ (db_info : String),
    get_redis_role db_info = Except.ok "master" →
    ∀ ping : Except RedisError String,
    (check_node_readiness db_info ping = Except.ok true ↔
      ∃ r, ping = Except.ok r ∧ strContains r "PONG" = true ∧
        strContains db_info "loading:0" = true) := by
  intro db_info hrole ping
  simp only [check_node_readiness, hrole, beq_self_eq_true, if_true]
  cases ping with
  | ok r => simp [get_status_from_master_readiness]
  | error e => simp [get_status_from_master_readiness]

/-- C4 (witness): a loaded master with a pong reply passes readiness. -/
theorem c4_witness :
    check_node_readiness "role:master\r\nloading:0\r\n" (Except.ok "PONG") =
      Except.ok true :=
  (c4_amended "role:master\r\nloading:0\r\n" rfl (Except.ok "PONG")).mpr
    ⟨"PONG", rfl, rfl, rfl⟩

/-- C5 (counterexample): a master whose ping fails with a master-down error
gets a failed liveness verdict, although the claim requires liveness to pass
on an error indicating master-down. -/
theorem c5_counterexample :
    check_node_liveness "role:master\r\nloading:0\r\n"
        (Except.error ⟨ErrorKind.MasterDown, "MASTERDOWN Link with MASTER is down"⟩) =
      Except.ok false := rfl

/-- C5 (corrected): for role master, liveness passes iff the ping reply
contains `PONG` or the ping fails with a busy-loading error; a master-down or
any other error kind fails (only the slave path treats master-down as
liveness-passing). -/
theorem c5_amended : ∀ (db_info : String),
    get_redis_role db_info = Except.ok "master" →
    ∀ ping : Except RedisError String,
    (check_node_liveness db_info ping = Except.ok true ↔
      ((∃ r, ping = Except.ok r ∧ strContains r "PONG" = true) ∨
       (∃ e, ping = Except.error e ∧ e.kind = ErrorKind.BusyLoadingError))) := by
  intro db_info hrole ping
  simp only [check_node_liveness, hrole, beq_self_eq_true, if_true]
  cases ping with
  | ok r => simp [get_status_from_master_liveness]
  | error e => cases hk : e.kind <;> simp [get_status_from_master_liveness, hk]

/-- C5 (witness): a master with a pong reply passes liveness. -/
theorem c5_witness :
    check_node_liveness "role:master\r\nloading:0\r\n" (Except.ok "PONG") =
      Except.ok true :=
  (c5_amended "role:master\r\nloading:0\r\n" rfl (Except.ok "PONG")).mpr
    (Or.inl ⟨"PONG", rfl, rfl⟩)

/-- C6 (counterexample): in the main variant, an introspection text with no
recognizable role makes the node check return the command error
`Role not found` — an error condition, not an ordinary false verdict. -/
theorem c6_counterexample :
    check_node_liveness "foo" (Except.ok "PONG") =
      Except.error ⟨ErrorKind.ResponseError, "Role not found"⟩ := rfl

/-- C6 (corrected): an introspection text with no recognizable role yields the
failed verdict `500 Not ready` in both variants, but only the falkordb-node
variant renders it as an ordinary `Ok(false)` classification result; the main
variant signals it as the command error `Role not found`, which the route
layer then converts into the same failed verdict. -/
theorem c6_amended : ∀ (db_info : String) (ping : Except RedisError String),
    findCapture ("role:").data isWordChar db_info.data = none →
    check_node_liveness db_info ping =
        Except.error ⟨ErrorKind.ResponseError, "Role not found"⟩ ∧
    check_node_readiness db_info ping =
        Except.error ⟨ErrorKind.ResponseError, "Role not found"⟩ ∧
    probe_endpoint (check_node_liveness db_info ping) = (500, "Not ready") ∧
    node_health_check_handler (Except.ok ()) (Except.ok db_info) = Except.ok false ∧
    node_health_route (node_health_check_handler (Except.ok ()) (Except.ok db_info)) =
        some (500, "Not ready") := by
  intro db_info ping h
  have hrole : get_redis_role db_info =
      Except.error ⟨ErrorKind.ResponseError, "Role not found"⟩ := by
    simp [get_redis_role, h]
  refine ⟨?_, ?_, ?_, ?_, ?_⟩
  · simp [check_node_liveness, hrole]
  · simp [check_node_readiness, hrole]
  · simp [probe_endpoint, check_node_liveness, hrole]
  · simp [node_health_check_handler, node_classify, h]
  · simp [node_health_route, node_health_check_handler, node_classify, h]

/-- C6 (witness): evaluated at the role-free text `foo`, both variants answer
the failed verdict. -/
theorem c6_witness :
    node_health_route (node_health_check_handler (Except.ok ()) (Except.ok "foo")) =
      some (500, "Not ready") :=
  (c6_amended "foo" (Except.ok "PONG") rfl).2.2.2.2

/-- C7 (counterexample): startup computes the listener address with no DNS
input at all, and the per-request liveness evaluation of one and the same
TLS-configured probe is a panic (`none`) under a never-resolving oracle but a
passing verdict under a resolving one — so the bounded DNS wait happens inside
steady-state probe handling after the server is already serving, not as a
fatal condition before any HTTP traffic. -/
theorem c7_counterexample :
    start_health_check_addr none = "localhost:8081" ∧
    check_handler_liveness_full ⟨some "true", some "example.com", none⟩
        (fun _ => false) "" "6379"
        ⟨Except.ok (), Except.ok "role:master\r\nloading:0\r\n", Except.ok "",
         Except.ok "PONG"⟩ = none ∧
    check_handler_liveness_full ⟨some "true", some "example.com", none⟩
        (fun _ => true) "" "6379"
        ⟨Except.ok (), Except.ok "role:master\r\nloading:0\r\n", Except.ok "",
         Except.ok "PONG"⟩ = some (Except.ok true) :=
  ⟨rfl, rfl, rfl⟩

/-- C7 (corrected): with an encrypted transport and a hostname that never
becomes resolvable, the per-second resolution poll exhausts its 300-second
budget and the `assert!` panics — but this happens inside each probe request
(`get_redis_url` is called per probe), killing that request's handler, while
startup merely computes the listener address without any resolution wait, so
the process serves HTTP regardless. -/
theorem c7_amended : ∀ (oracle : Nat → Bool) (host password node_port : String)
    (rnp : Option String) (b : Backend) (hcp : Option String),
    (∀ t, oracle t = false) →
    resolve_host oracle = false ∧
    get_redis_url ⟨some "true", some host, rnp⟩ oracle password node_port = none ∧
    check_handler_liveness_full ⟨some "true", some host, rnp⟩ oracle password
        node_port b = none ∧
    start_health_check_addr hcp = "localhost:" ++ hcp.getD "8081" := by
  intro oracle host password node_port rnp b hcp h
  have hres : resolve_host oracle = false := resolve_host_go_dead oracle h 300 0
  have hurl : get_redis_url ⟨some "true", some host, rnp⟩ oracle password
      node_port = none := by
    simp [get_redis_url, hres]
  refine ⟨hres, hurl, ?_, rfl⟩
  simp [check_handler_liveness_full, hurl]

/-- C7 (witness): a concrete never-resolving oracle makes the TLS probe
request die. -/
theorem c7_witness :
    check_handler_liveness_full ⟨some "true", some "example.com", none⟩
        (fun _ => false) "" "6379"
        ⟨Except.ok (), Except.ok "role:master\r\nloading:0\r\n", Except.ok "",
         Except.ok "PONG"⟩ = none :=
  (c7_amended (fun _ => false) "example.com" "" "6379" none
      ⟨Except.ok (), Except.ok "role:master\r\nloading:0\r\n", Except.ok "",
       Except.ok "PONG"⟩ none (fun _ => rfl)).2.2.1

/-- C8 (confirmed, modelled from the spec): when the global disable flag or
the remote configuration's skip-all flag is set, every probe kind answers
`200 OK`, whatever the backend evaluation produced — including a connection
failure. -/
theorem c8_theorem : ∀ (g : Bool) (d : OverrideDecision) (k : ProbeKind)
    (res : Except RedisError Bool),
    (g = true ∨ d.skipAll = true) →
    probe_with_overrides g d k res = (200, "OK") := by
  intro g d k res h
  rcases h with hg | hs
  · simp [probe_with_overrides, hg]
  · cases g <;> simp [probe_with_overrides, override_applies, hs]

/-- C8 (witness): skip-all set in the remote configuration forces a pass even
on a connection failure. -/
theorem c8_witness :
    probe_with_overrides false ⟨true, false, false, false⟩ ProbeKind.liveness
        (Except.error ⟨ErrorKind.IoError, "connection refused"⟩) = (200, "OK") :=
  c8_theorem false ⟨true, false, false, false⟩ ProbeKind.liveness
    (Except.error ⟨ErrorKind.IoError, "connection refused"⟩) (Or.inr rfl)

/-- C9 (confirmed, modelled from the spec): only an I/O-class ping timeout
invokes the Disk-Activity Fallback Monitor (a pong passes directly, a protocol
error fails directly), and under the default threshold 0 the fallback verdict
passes iff the disk-read-counter delta over the window is nonzero. -/
theorem c9_theorem : ∀ (s1 s2 : Option Nat) (t c1 c2 : Nat),
    liveness_with_fallback PingOutcome.ioTimeout s1 s2 t = disk_fallback s1 s2 t ∧
    liveness_with_fallback PingOutcome.pong s1 s2 t = true ∧
    liveness_with_fallback PingOutcome.protocolError s1 s2 t = false ∧
    (liveness_with_fallback PingOutcome.ioTimeout (some c1) (some c2) 0 = true ↔
      c2 - c1 ≠ 0) := by
  intro s1 s2 t c1 c2
  refine ⟨rfl, rfl, rfl, ?_⟩
  simp only [liveness_with_fallback, disk_fallback, decide_eq_true_eq]
  omega

/-- C10 (counterexample): on the introspection text of a bare master and a
pong reply, the falkordb-node variant's handler passes while the main
variant's readiness check fails (no `loading:0` in the text) — the two
variants do not compute the same verdict. -/
theorem c10_counterexample :
    node_classify "role:master\r\n" = true ∧
    check_node_readiness "role:master\r\n" (Except.ok "PONG") = Except.ok false :=
  ⟨rfl, rfl⟩

/-- C10 (corrected): the two variants' verdicts coincide only on restricted
inputs: when the ping reply contains `PONG`, the text contains `loading:0` and
`master_link_status:up`, and the node variant's regex-based sync test agrees
with the main variant's substring sync test; in general the node variant
ignores the ping reply and the loading and master-link fields (it passes every
master unconditionally). -/
theorem c10_amended : ∀ (db_info r : String),
    strContains r "PONG" = true →
    strContains db_info "loading:0" = true →
    strContains db_info "master_link_status:up" = true →
    node_sync_ok db_info = strContains db_info "master_sync_in_progress:0" →
    (node_classify db_info = true ↔
      check_node_readiness db_info (Except.ok r) = Except.ok true) := by
  intro db_info r hp hl hml hsync
  cases hcap : findCapture ("role:").data isWordChar db_info.data with
  | none =>
    simp [node_classify, check_node_readiness, get_redis_role, hcap]
  | some w =>
    cases hmw : String.mk w == "master" with
    | true =>
      simp [node_classify, check_node_readiness, get_redis_role, hcap, hmw,
        get_status_from_master_readiness, hp, hl]
    | false =>
      simp [node_classify, check_node_readiness, get_redis_role, hcap, hmw,
        get_status_from_slave_readiness, hp, hl, hml, hsync]

/-- C10 (witness): on a synced, loaded slave snapshot with a pong reply the
two variants agree. -/
theorem c10_witness :
    node_classify
        "role:slave\r\nmaster_link_status:up\r\nmaster_sync_in_progress:0\r\nloading:0\r\n" =
        true ↔
      check_node_readiness
        "role:slave\r\nmaster_link_status:up\r\nmaster_sync_in_progress:0\r\nloading:0\r\n"
        (Except.ok "PONG") = Except.ok true :=
  c10_amended
    "role:slave\r\nmaster_link_status:up\r\nmaster_sync_in_progress:0\r\nloading:0\r\n"
    "PONG" rfl rfl rfl rfl

end HealthCheck
